import Mathlib

/-!
Shallow embedding of the TCP-over-UDP protocol engine in
src/hw/1_tcp/protocol.py, together with theorems checking the
natural-language specification against it.

Byte strings are modelled as `List Nat` (each entry one byte), Python
integers as `Nat` or `Int` (they are unbounded in the source), and the
blocking event waits as explicit event lists handed to the loops.
-/

namespace TcpOverUdp

/-! ## Protocol constants (class ProtocolConstants, lines 8 to 20) -/

def SYN : Nat := 2
def ACK : Nat := 16
def FIN : Nat := 1
def MSS : Nat := 1460
def HEADER : Nat := 12
def MTU : Nat := MSS + HEADER

/-- `self.window_size = int(BANDWIDTH / 8 * RTT)` with BANDWIDTH = 1000000 and
RTT = 0.01 evaluates to 1250 bytes (line 59). -/
def window_size : Nat := 1250

/-! ## Byte-string primitives

Python slicing `bs[i:j]` truncates silently on short input, and
`int.from_bytes` of an empty byte string is 0. -/

/-- Python `bs[i:j]` for 0 ≤ i ≤ j. -/
def sliceBytes (bs : List Nat) (i j : Nat) : List Nat :=
  (bs.take j).drop i

/-- Python `int.from_bytes(bs, "big")`. -/
def int_from_bytes (bs : List Nat) : Nat :=
  bs.foldl (fun acc b => acc * 256 + b) 0

/-- The sequence-number header field, `recv[0:4]` big endian. -/
def seq_field (bs : List Nat) : Nat := int_from_bytes (sliceBytes bs 0 4)

/-- The acknowledgment header field, `recv[4:8]` big endian. -/
def ack_field (bs : List Nat) : Nat := int_from_bytes (sliceBytes bs 4 8)

/-- The flags header field, `recv[8:10]` big endian. -/
def flags_field (bs : List Nat) : Nat := int_from_bytes (sliceBytes bs 8 10)

/-! ## recv (lines 147 to 202)

The loop state is the local variables of `recv` plus the one connection
field it mutates, `self.ack_number`.  Each loop iteration either times out
waiting on `data_received_event` or consumes the pending
`self.received_data` segment (whose first four bytes the dispatch loop
decoded into `self.remote_sequence_number`). -/

structure RecvState where
  ack_number : Nat
  data : List Nat
  not_ack : Int
deriving Repr, DecidableEq

inductive RecvEvent where
  | timeout
  | arrival (received_data : List Nat)
deriving Repr, DecidableEq

/-- Lines 177 to 184: compare `expected_seq = self.ack_number +
len(self.received_data) - HEADER` with `self.remote_sequence_number` and
take the matching branch.  The second component counts the ACK control
segments sent by `_send_single_ack` in this fragment (it returns 0, which
the caller stores back into `not_ack`). -/
def recv_arrival (st : RecvState) (bs : List Nat) : RecvState × Nat :=
  if (st.ack_number : Int) + (bs.length : Int) - (HEADER : Int) = (seq_field bs : Int) then
    ({ st with data := st.data ++ bs.drop HEADER,
               not_ack := st.not_ack + ((bs.length : Int) - (HEADER : Int)),
               ack_number := seq_field bs }, 0)
  else if (st.ack_number : Int) + (bs.length : Int) - (HEADER : Int) ≤ (seq_field bs : Int) then
    ({ st with not_ack := 0 }, 1)
  else (st, 0)

/-- Lines 185 to 186: `if not_ack >= self.window_size: not_ack =
self._send_single_ack(not_ack)`. -/
def window_flush (p : RecvState × Nat) : RecvState × Nat :=
  if (window_size : Int) ≤ p.1.not_ack then ({ p.1 with not_ack := 0 }, p.2 + 1)
  else p

/-- One iteration of the `while len(data) < n` loop body (lines 172 to 186).
A timeout of `_wait_for_data` sends one ACK and `continue`s, skipping the
window flush. -/
def recv_iter (st : RecvState) : RecvEvent → RecvState × Nat
  | .timeout => ({ st with not_ack := 0 }, 1)
  | .arrival bs => window_flush (recv_arrival st bs)

/-- The `while len(data) < n` loop followed by `_send_final_acks` (three
ACKs, lines 200 to 202).  `none` means the event list ran out while the
loop would still be blocking. -/
def recv_loop (n : Nat) : List RecvEvent → RecvState → Nat → Option (RecvState × Nat)
  | [], st, acks => if n ≤ st.data.length then some (st, acks + 3) else none
  | ev :: rest, st, acks =>
    if n ≤ st.data.length then some (st, acks + 3)
    else recv_loop n rest (recv_iter st ev).1 (acks + (recv_iter st ev).2)

/-- `recv(n)` from a fresh iteration state (`data = bytes()`, `not_ack = 0`,
lines 169 to 170), returning the assembled bytes and the total number of
ACK control segments sent. -/
def recv (n : Nat) (ack0 : Nat) (evs : List RecvEvent) : Option (List Nat × Nat) :=
  (recv_loop n evs ⟨ack0, [], 0⟩ 0).map (fun p => (p.1.data, p.2))

/-! ## Sample inputs used by concrete evaluations -/

/-- A data segment with sequence field 2 and two payload bytes. -/
def seg_c1 : List Nat := [0, 0, 0, 2, 0, 0, 0, 0, 0, 0, 0, 0, 65, 66]

/-- A data segment with sequence field 99 and one payload byte. -/
def seg_c2 : List Nat := [0, 0, 0, 99, 0, 0, 0, 0, 0, 0, 0, 0, 8]

/-- A stale duplicate: sequence field 10 with ten payload bytes. -/
def seg_c4 : List Nat :=
  [0, 0, 0, 10, 0, 0, 0, 0, 0, 0, 0, 0] ++ List.replicate 10 1

/-- A skipped-ahead data segment: sequence field 30, empty payload. -/
def seg_gap : List Nat := [0, 0, 0, 30, 0, 0, 0, 0, 0, 0, 0, 0]

/-! ## The background receive-dispatch loop `receiving` (lines 204 to 231) -/

structure DispatchState where
  remote_ack_number : Nat
  received_data : List Nat
  remote_sequence_number : Nat
  ack_received_event : Bool
  data_received_event : Bool
  fin_received : Bool
deriving Repr, DecidableEq

/-- Dispatch of one datagram read by `recvfrom(MTU)`: decode the flags field
and branch on its exact value (lines 213 to 231).  Any other flag value
falls through the chain and leaves the state untouched. -/
def receiving_step (st : DispatchState) (recv_bytes : List Nat) : DispatchState :=
  if flags_field recv_bytes = ACK then
    { st with remote_ack_number := max st.remote_ack_number (ack_field recv_bytes),
              ack_received_event := true }
  else if flags_field recv_bytes = 0 then
    { st with received_data := recv_bytes,
              remote_sequence_number := seq_field recv_bytes,
              data_received_event := true }
  else if flags_field recv_bytes = FIN then
    { st with fin_received := true }
  else st

/-- The `while not self.stop_receiving` loop over a list of incoming
datagrams; a FIN segment `break`s out after being dispatched. -/
def receiving_run (st : DispatchState) : List (List Nat) → DispatchState
  | [] => st
  | bs :: rest =>
    if flags_field bs = FIN then receiving_step st bs
    else receiving_run (receiving_step st bs) rest

/-- The inline segment decoding done by `receiving`: slice out the three
header fields.  The source has no length guard and no failure path, so the
`Except` is constantly `ok`; Python slicing truncates short input and
`int.from_bytes` of the empty slice is 0. -/
def decode_segment (bs : List Nat) : Except String (Nat × Nat × Nat) :=
  .ok (seq_field bs, ack_field bs, flags_field bs)

/-- Initial dispatch state (all counters zero, no pending data). -/
def d0 : DispatchState := ⟨0, [], 0, false, false, false⟩

/-- An ACK control segment whose acknowledgment field is 42. -/
def seg_ack42 : List Nat := [0, 0, 0, 0, 0, 0, 0, 42, 0, 16, 0, 0]

/-! ## Module imports and the sequence-number initializers (lines 1 to 5,
249 to 251 and 283 to 284)

protocol.py binds exactly these module-global names: the five imports on
lines 1 to 5 (`import socket`, `import threading`,
`from collections import deque`, `from time import sleep`,
`from protocol_logger import TCPLogger`) and its three class definitions.
`random` is not among them, so evaluating `random.randint` resolves the
global name `random` and raises NameError. -/

inductive PyError where
  | nameError (missing : String)
  | overflowError
deriving Repr, DecidableEq

def module_global_names : List String :=
  ["socket", "threading", "deque", "sleep", "TCPLogger",
   "ProtocolConstants", "UDPBasedProtocol", "MyTCPProtocol"]

/-- Python global-name resolution at module level of protocol.py. -/
def lookup_global (n : String) : Except PyError String :=
  if n ∈ module_global_names then .ok n else .error (.nameError n)

/-- `_init_client_sequence` (lines 249 to 251):
`self.sequence_number = random.randint(0, 2 ** 32 - 1)`.  The drawn value
`r` is supplied as an oracle argument; evaluating the call first resolves
the global name `random`. -/
def init_client_sequence (r : Nat) : Except PyError Nat :=
  (lookup_global "random").map (fun _ => r)

/-- `_init_server_sequence` (lines 283 to 284), identical body. -/
def init_server_sequence (r : Nat) : Except PyError Nat :=
  (lookup_global "random").map (fun _ => r)

/-! ## The sender: `send` (lines 87 to 106) and `sending` (lines 108 to 145)

`sending` runs concurrently with the dispatch loop, which is the only
writer of `remote_ack_number`.  Its blocking point
`ack_received_event.wait(RST_TIMEOUT)` is modelled by an oracle list: one
entry per wait, `none` for a timeout and `some a` for an ack arrival that
left `remote_ack_number` at `max remote_ack a`. -/

/-- Python `v.to_bytes(len, "big")`: raises OverflowError when the value
does not fit, instead of wrapping modulo 256 to the len. -/
def int_to_bytes (v len : Nat) : Except PyError (List Nat) :=
  if v < 256 ^ len then
    .ok ((List.range len).map (fun i => v / 256 ^ (len - 1 - i) % 256))
  else .error .overflowError

/-- `send_data` (lines 363 to 374): the encoded wire datagram. -/
def send_data_wire (seq ack flags window : Nat) (payload : List Nat) :
    Except PyError (List Nat) := do
  let s ← int_to_bytes seq 4
  let a ← int_to_bytes ack 4
  let f ← int_to_bytes flags 2
  let w ← int_to_bytes window 2
  pure (s ++ a ++ f ++ w ++ payload)

/-- `send_flags` (lines 351 to 361): a header-only control datagram. -/
def send_flags_wire (seq ack flags window : Nat) : Except PyError (List Nat) :=
  send_data_wire seq ack flags window []

inductive RunResult where
  | done (seq remote_ack : Nat) (sent : List (List Nat)) (oracle_rest : List (Option Nat))
  | aborted (seq remote_ack : Nat) (sent : List (List Nat))
  | raised (e : PyError) (sent : List (List Nat))
  | fuel_out
deriving Repr, DecidableEq

def RunResult.is_aborted : RunResult → Bool
  | .aborted _ _ _ => true
  | _ => false

def RunResult.sent_list : RunResult → List (List Nat)
  | .done _ _ s _ => s
  | .aborted _ _ s => s
  | .raised _ s => s
  | .fuel_out => []

/-- The inner `while self.remote_ack_number < start_seq + len(data)` loop of
`sending` (lines 128 to 145) for one popped buffer.  In the window-open
branch the source first advances `self.sequence_number` by `send_bytes` and
then calls `send_data` on the slice
`data[seq - start_seq - send_bytes : seq - start_seq]`, so the transmitted
header carries the advanced sequence number.  An uncaught encode error
kills the thread (`raised`).  On a wait timeout the method returns
(`aborted`); on an ack arrival `remote_ack` merges monotonically and line
145 resets `sequence_number = remote_ack_number`. -/
def sending_buffer : Nat → Nat → List Nat → Nat → Nat → Nat → List (Option Nat) → RunResult
  | 0, _, _, _, _, _, _ => .fuel_out
  | fuel + 1, start_seq, data, ack_num, seq, remote_ack, oracle =>
    if start_seq + data.length ≤ remote_ack then .done seq remote_ack [] oracle
    else if seq < start_seq + data.length ∧ seq < remote_ack + window_size then
      let send_bytes :=
        min MSS (min (remote_ack + window_size - seq) (start_seq + data.length - seq))
      match send_data_wire (seq + send_bytes) ack_num 0 window_size
          ((data.drop (seq - start_seq)).take send_bytes) with
      | .error e => .raised e []
      | .ok wire =>
        match sending_buffer fuel start_seq data ack_num (seq + send_bytes) remote_ack oracle with
        | .done s r sent orest => .done s r (wire :: sent) orest
        | .aborted s r sent => .aborted s r (wire :: sent)
        | .raised e sent => .raised e (wire :: sent)
        | .fuel_out => .fuel_out
    else
      match oracle with
      | [] => .fuel_out
      | none :: _ => .aborted seq remote_ack []
      | some a :: orest =>
        sending_buffer fuel start_seq data ack_num (max remote_ack a) (max remote_ack a) orest

/-- The outer `while len(self.send_queue)` loop of `sending` (lines 125 to
127): pop the next buffer (FIFO; the queue list is kept in pop order here)
and run the inner loop with `start_seq = self.sequence_number`. -/
def sending : Nat → Nat → Nat → Nat → List (List Nat) → List (Option Nat) → RunResult
  | _, seq, remote_ack, _, [], oracle => .done seq remote_ack [] oracle
  | fuel, seq, remote_ack, ack_num, data :: rest, oracle =>
    match sending_buffer fuel seq data ack_num seq remote_ack oracle with
    | .done s r sent orest =>
      match sending fuel s r ack_num rest orest with
      | .done s2 r2 sent2 orest2 => .done s2 r2 (sent ++ sent2) orest2
      | .aborted s2 r2 sent2 => .aborted s2 r2 (sent ++ sent2)
      | .raised e sent2 => .raised e (sent ++ sent2)
      | .fuel_out => .fuel_out
    | r => r

/-- The queue and sender-thread fields touched by `send`.  The deque is
kept in pop order, so `appendleft` appends at the end of the list. -/
structure SendState where
  queue : List (List Nat)
  sending_alive : Bool
deriving Repr, DecidableEq

/-- `send` (lines 87 to 106): `appendleft` the buffer, respawn the sending
thread if it is not alive, return `len(data)`. -/
def send (st : SendState) (data : List Nat) : SendState × Nat :=
  let st1 : SendState := { st with queue := st.queue ++ [data] }
  ((if st1.sending_alive then st1 else { st1 with sending_alive := true }), data.length)

/-! ## Active close: `terminate_client` tail (lines 300 to 331) -/

/-- `recv_flags(flags)` (lines 376 to 388): read 12-byte headers with
`recvfrom(HEADER)` until one whose flags field equals `flags` exactly, and
keep that header (its seq and ack fields are stored into
`remote_sequence_number` and `remote_ack_number`). -/
def recv_flags_match (target : Nat) : List (List Nat) → Option (List Nat)
  | [] => none
  | bs :: rest =>
    if flags_field (bs.take HEADER) = target then some (bs.take HEADER)
    else recv_flags_match target rest

structure CloseState where
  sequence_number : Nat
  ack_number : Nat
deriving Repr, DecidableEq

inductive CloseAction where
  | send_seg (flags : Nat)
  | linger
deriving Repr, DecidableEq

/-- `_wait_for_fin_ack` (lines 318 to 325): the loop exits only once the
FIN|ACK matcher has returned and `self.remote_sequence_number ==
self.ack_number + 1`; it then sets `ack_number = remote_sequence_number`.
If the matched segment has any other sequence field the loop resends FIN
forever (`none`). -/
def wait_for_fin_ack (st : CloseState) (incoming : List (List Nat)) : Option CloseState :=
  match recv_flags_match (FIN ||| ACK) incoming with
  | none => none
  | some m =>
    if seq_field m = st.ack_number + 1 then some { st with ack_number := seq_field m }
    else none

/-- `_send_final_client_ack` (lines 327 to 331): increment
`sequence_number`, send three ACKs, sleep one `timeout_duration`. -/
def send_final_client_ack (st : CloseState) : CloseState × List CloseAction :=
  ({ st with sequence_number := st.sequence_number + 1 },
   [.send_seg ACK, .send_seg ACK, .send_seg ACK, .linger])

/-- The tail of `terminate_client` after the dispatch loop has stopped:
`_wait_for_fin_ack` then `_send_final_client_ack`. -/
def terminate_client_tail (st : CloseState) (incoming : List (List Nat)) :
    Option (CloseState × List CloseAction) :=
  (wait_for_fin_ack st incoming).map send_final_client_ack

/-- A FIN|ACK header whose ack field is 101 but whose sequence field is 500. -/
def seg_finack_bad : List Nat := [0, 0, 1, 244, 0, 0, 0, 101, 0, 17, 0, 0]

/-- A FIN|ACK header whose sequence field is 101. -/
def seg_finack_good : List Nat := [0, 0, 0, 101, 0, 0, 0, 0, 0, 17, 0, 0]

/-! ## Helper lemmas -/

theorem window_flush_data (p : RecvState × Nat) :
    (window_flush p).1.data = p.1.data ∧ (window_flush p).1.ack_number = p.1.ack_number := by
  unfold window_flush
  split_ifs <;> exact ⟨rfl, rfl⟩

theorem recv_arrival_no_match (st : RecvState) (bs : List Nat)
    (h : ¬ ((st.ack_number : Int) + (bs.length : Int) - (HEADER : Int) = (seq_field bs : Int))) :
    (recv_arrival st bs).1.ack_number = st.ack_number ∧ (recv_arrival st bs).1.data = st.data := by
  unfold recv_arrival
  rw [if_neg h]
  split_ifs with h2
  · exact ⟨rfl, rfl⟩
  · exact ⟨rfl, rfl⟩

theorem recv_arrival_match_fields (st : RecvState) (bs : List Nat)
    (h : (st.ack_number : Int) + (bs.length : Int) - (HEADER : Int) = (seq_field bs : Int)) :
    (recv_arrival st bs).1.ack_number = seq_field bs ∧
    (recv_arrival st bs).1.data = st.data ++ bs.drop HEADER := by
  unfold recv_arrival
  rw [if_pos h]
  exact ⟨rfl, rfl⟩

theorem recv_loop_length_ge (n : Nat) :
    ∀ (evs : List RecvEvent) (st : RecvState) (acks : Nat) (st2 : RecvState) (acks2 : Nat),
      recv_loop n evs st acks = some (st2, acks2) → n ≤ st2.data.length := by
  intro evs
  induction evs with
  | nil =>
    intro st acks st2 acks2 h
    unfold recv_loop at h
    split at h
    · next hle =>
      simp only [Option.some.injEq, Prod.mk.injEq] at h
      rw [← h.1]
      exact hle
    · exact absurd h (by simp)
  | cons ev rest ih =>
    intro st acks st2 acks2 h
    unfold recv_loop at h
    split at h
    · next hle =>
      simp only [Option.some.injEq, Prod.mk.injEq] at h
      rw [← h.1]
      exact hle
    · exact ih _ _ _ _ h

theorem receiving_step_remote_ack_le (st : DispatchState) (bs : List Nat) :
    st.remote_ack_number ≤ (receiving_step st bs).remote_ack_number := by
  unfold receiving_step
  split_ifs <;> simp

theorem receiving_run_remote_ack_le (segs : List (List Nat)) :
    ∀ st : DispatchState, st.remote_ack_number ≤ (receiving_run st segs).remote_ack_number := by
  induction segs with
  | nil => intro st; exact le_refl _
  | cons bs rest ih =>
    intro st
    unfold receiving_run
    split_ifs with h
    · exact receiving_step_remote_ack_le st bs
    · exact le_trans (receiving_step_remote_ack_le st bs) (ih _)

theorem flags_field_eq_zero_of_le_eight (bs : List Nat) (h : bs.length ≤ 8) :
    flags_field bs = 0 := by
  unfold flags_field sliceBytes
  have hnil : (bs.take 10).drop 8 = [] := by
    apply List.drop_eq_nil_of_le
    simp only [List.length_take]
    omega
  rw [hnil]
  rfl

/-! ## Claim C10 -/

/-- Claim C10: recv(0), called after the handshake has completed, returns
the empty byte string without waiting for or consuming any data segment,
yet still transmits three ACK control segments before returning. -/
theorem recv_zero_returns_empty_with_three_acks :
    ∀ (ack0 : Nat) (evs : List RecvEvent), recv 0 ack0 evs = some ([], 3) := by
  intro ack0 evs
  cases evs <;> simp [recv, recv_loop]

/-! ## Claim C1 -/

/-- Counterexample to claim C1 as stated: with a single exactly-matching
data segment carrying a two-byte payload, recv(1) returns two bytes, not
exactly one. -/
theorem recv_exact_length_counterexample :
    recv 1 0 [.arrival seg_c1] = some ([65, 66], 3) ∧ ([65, 66] : List Nat).length ≠ 1 := by
  exact ⟨rfl, by decide⟩

/-- Claim C1, amended: whenever recv(n) returns, the returned byte string
has length at least n (the loop only exits once `len(data) >= n`); it can
exceed n because whole payloads of exactly-matching segments are appended
with no truncation. -/
theorem recv_returns_at_least (n ack0 : Nat) (evs : List RecvEvent)
    (out : List Nat) (acks : Nat) (h : recv n ack0 evs = some (out, acks)) :
    n ≤ out.length := by
  unfold recv at h
  cases hl : recv_loop n evs ⟨ack0, [], 0⟩ 0 with
  | none => rw [hl] at h; exact absurd h (by simp)
  | some p =>
    rw [hl] at h
    simp at h
    rw [← h.1]
    exact recv_loop_length_ge n evs _ 0 p.1 p.2 (by rw [hl])

/-- Witness for the amended C1 theorem at a concrete run. -/
theorem recv_returns_at_least_witness : 1 ≤ (seg_c1.drop HEADER).length :=
  recv_returns_at_least 1 0 [.arrival seg_c1] (seg_c1.drop HEADER) 3 (by decide)

/-! ## Claim C2 -/

/-- Claim C2: a data segment whose sequence number does not equal the
expected next offset (local ack plus payload length) leaves `ack_number`
and the assembled output unchanged in that iteration; and applying the
same data segment twice changes the output and `ack_number` exactly as
applying it once. -/
theorem recv_gap_duplicate_rejection :
    ∀ (st : RecvState) (bs : List Nat),
      (HEADER ≤ bs.length →
        seq_field bs ≠ st.ack_number + (bs.length - HEADER) →
        (recv_iter st (.arrival bs)).1.ack_number = st.ack_number ∧
        (recv_iter st (.arrival bs)).1.data = st.data) ∧
      ((recv_iter (recv_iter st (.arrival bs)).1 (.arrival bs)).1.data =
        (recv_iter st (.arrival bs)).1.data ∧
       (recv_iter (recv_iter st (.arrival bs)).1 (.arrival bs)).1.ack_number =
        (recv_iter st (.arrival bs)).1.ack_number) := by
  intro st bs
  constructor
  · intro hlen hneq
    have hne : ¬ ((st.ack_number : Int) + (bs.length : Int) - (HEADER : Int)
        = (seq_field bs : Int)) := by
      rw [show (HEADER : Int) = 12 from rfl]
      rw [show HEADER = 12 from rfl] at hlen hneq
      omega
    have hA := recv_arrival_no_match st bs hne
    have hw := window_flush_data (recv_arrival st bs)
    simp only [recv_iter]
    exact ⟨by rw [hw.2, hA.1], by rw [hw.1, hA.2]⟩
  · have hw1 := window_flush_data (recv_arrival st bs)
    simp only [recv_iter]
    set st1 := (window_flush (recv_arrival st bs)).1 with hst1
    have hw2 := window_flush_data (recv_arrival st1 bs)
    rw [hw2.1, hw2.2]
    by_cases h2 : ((st1.ack_number : Int) + (bs.length : Int) - (HEADER : Int)
        = (seq_field bs : Int))
    · have hm := recv_arrival_match_fields st1 bs h2
      by_cases h1 : ((st.ack_number : Int) + (bs.length : Int) - (HEADER : Int)
          = (seq_field bs : Int))
      · have hA := recv_arrival_match_fields st bs h1
        have hack : st1.ack_number = seq_field bs := by
          rw [hst1, hw1.2, hA.1]
        rw [hack] at h2
        have hlen12 : bs.length = 12 := by
          rw [show (HEADER : Int) = 12 from rfl] at h2
          omega
        have hdrop : bs.drop HEADER = [] :=
          List.drop_eq_nil_of_le (by rw [hlen12]; decide)
        constructor
        · rw [hm.2, hdrop, List.append_nil]
        · rw [hm.1, hack]
      · have hack : st1.ack_number = st.ack_number := by
          rw [hst1, hw1.2, (recv_arrival_no_match st bs h1).1]
        rw [hack] at h2
        exact absurd h2 h1
    · have hA2 := recv_arrival_no_match st1 bs h2
      exact ⟨hA2.2, hA2.1⟩

/-- Witness for C2 at a concrete mismatching segment. -/
theorem recv_gap_duplicate_rejection_witness :
    ((recv_iter ⟨5, [9], 3⟩ (.arrival seg_c2)).1.ack_number = 5 ∧
     (recv_iter ⟨5, [9], 3⟩ (.arrival seg_c2)).1.data = [9]) ∧
    ((recv_iter (recv_iter ⟨5, [9], 3⟩ (.arrival seg_c2)).1 (.arrival seg_c2)).1.data =
      (recv_iter ⟨5, [9], 3⟩ (.arrival seg_c2)).1.data ∧
     (recv_iter (recv_iter ⟨5, [9], 3⟩ (.arrival seg_c2)).1 (.arrival seg_c2)).1.ack_number =
      (recv_iter ⟨5, [9], 3⟩ (.arrival seg_c2)).1.ack_number) := by
  have h := recv_gap_duplicate_rejection ⟨5, [9], 3⟩ seg_c2
  exact ⟨h.1 (by decide) (by decide), h.2⟩

/-! ## Claim C3 -/

/-- Claim C3: in the dispatch loop a segment whose flags equal exactly ACK
updates `remote_ack_number` to the max of its old value and the decoded
ack field, and over any incoming segment list `remote_ack_number` never
decreases. -/
theorem remote_ack_monotone :
    (∀ (st : DispatchState) (bs : List Nat), flags_field bs = ACK →
      (receiving_step st bs).remote_ack_number = max st.remote_ack_number (ack_field bs)) ∧
    (∀ (st : DispatchState) (segs : List (List Nat)),
      st.remote_ack_number ≤ (receiving_run st segs).remote_ack_number) := by
  constructor
  · intro st bs h
    unfold receiving_step
    rw [if_pos h]
  · intro st segs
    exact receiving_run_remote_ack_le segs st

/-- Witness for C3 at a concrete ACK segment. -/
theorem remote_ack_monotone_witness :
    (receiving_step d0 seg_ack42).remote_ack_number
      = max d0.remote_ack_number (ack_field seg_ack42) :=
  remote_ack_monotone.1 d0 seg_ack42 (by decide)

/-! ## Claim C4 -/

/-- Counterexample to claim C4 as stated: a stale duplicate (sequence
number below the expected offset) is consumed without sending any ACK and
without resetting the unacked counter: the iteration returns the state
unchanged, with 0 ACKs emitted. -/
theorem recv_stale_duplicate_no_ack_counterexample :
    (seq_field seg_c4 : Int) ≠ ((10 : Int) + (seg_c4.length : Int) - (HEADER : Int)) ∧
    recv_iter ⟨10, [], 5⟩ (.arrival seg_c4) = (⟨10, [], 5⟩, 0) := by
  decide

/-- Claim C4, amended: only a skipped-ahead segment (sequence number above
the expected offset) triggers the immediate ACK and counter reset; a
segment whose sequence number is below the expected offset is ignored with
no ACK and no state change. -/
theorem recv_out_of_order_ack_reset :
    ∀ (st : RecvState) (bs : List Nat),
      (((st.ack_number : Int) + (bs.length : Int) - (HEADER : Int)) < (seq_field bs : Int) →
        recv_iter st (.arrival bs) = ({ st with not_ack := 0 }, 1)) ∧
      ((seq_field bs : Int) < ((st.ack_number : Int) + (bs.length : Int) - (HEADER : Int)) →
        st.not_ack < (window_size : Int) →
        recv_iter st (.arrival bs) = (st, 0)) := by
  intro st bs
  constructor
  · intro hlt
    simp only [recv_iter]
    unfold recv_arrival
    rw [if_neg (by omega), if_pos (by omega)]
    unfold window_flush
    rw [if_neg (by norm_num [window_size])]
  · intro hlt hna
    simp only [recv_iter]
    unfold recv_arrival
    rw [if_neg (by omega), if_neg (by omega)]
    unfold window_flush
    rw [if_neg (not_le.mpr hna)]

/-- Witness for the amended C4 theorem at a concrete skipped-ahead
segment. -/
theorem recv_out_of_order_ack_reset_witness :
    recv_iter ⟨10, [], 5⟩ (.arrival seg_gap) = (⟨10, [], 0⟩, 1) :=
  (recv_out_of_order_ack_reset ⟨10, [], 5⟩ seg_gap).1 (by decide)

/-! ## Claim C5 -/

/-- Claim C5 (code bug): both sequence-number initializers raise NameError,
because protocol.py calls `random.randint` without ever importing
`random`; the initialization step always fails instead of storing a random
32-bit value. -/
theorem init_sequence_name_error :
    ∀ r : Nat, init_client_sequence r = .error (.nameError "random") ∧
      init_server_sequence r = .error (.nameError "random") := by
  intro r
  exact ⟨rfl, rfl⟩

/-! ## Claim C6 -/

/-- Counterexample to claim C6 as stated: a sending run that times out
waiting for acks aborts (thread exits), but a later `send` call respawns
the sending thread and a subsequent run transmits a further data segment
on the same connection. -/
theorem sending_abandon_counterexample :
    (sending_buffer 5 0 [7, 7] 0 0 0 [none]).is_aborted = true ∧
    (send ⟨[], false⟩ [8, 8, 8]).1.sending_alive = true ∧
    (send ⟨[], false⟩ [8, 8, 8]).1.queue = [[8, 8, 8]] ∧
    (sending_buffer 5 2 [8, 8, 8] 0 2 0 [some 5]).sent_list =
      [[0, 0, 0, 5, 0, 0, 0, 0, 0, 0, 4, 226, 8, 8, 8]] ∧
    flags_field [0, 0, 0, 5, 0, 0, 0, 0, 0, 0, 4, 226, 8, 8, 8] = 0 := by
  exact ⟨rfl, rfl, rfl, rfl, rfl⟩

/-- Claim C6, amended: an ack-wait timeout makes the current sending run
return at once (aborting the rest of the popped buffer for that thread),
but any `send` call leaves a live sending thread behind and enqueues its
buffer, so transmission restarts for newly queued data. -/
theorem send_restart_after_timeout :
    ∀ (st : SendState) (data buf : List Nat) (fuel start_seq ack_num seq remote_ack : Nat)
      (oracle : List (Option Nat)),
      ((send st data).1.sending_alive = true ∧
       (send st data).1.queue = st.queue ++ [data] ∧
       (send st data).2 = data.length) ∧
      (remote_ack < start_seq + buf.length →
       ¬(seq < start_seq + buf.length ∧ seq < remote_ack + window_size) →
       sending_buffer (fuel + 1) start_seq buf ack_num seq remote_ack (none :: oracle) =
         .aborted seq remote_ack []) := by
  intro st data buf fuel start_seq ack_num seq remote_ack oracle
  constructor
  · unfold send
    by_cases h : st.sending_alive <;> simp [h]
  · intro h1 h2
    simp only [sending_buffer]
    rw [if_neg (by omega), if_neg h2]

/-- Witness for the amended C6 theorem at concrete inputs. -/
theorem send_restart_after_timeout_witness :
    ((send ⟨[], false⟩ [1]).1.sending_alive = true ∧
     (send ⟨[], false⟩ [1]).1.queue = ([] : List (List Nat)) ++ [[1]] ∧
     (send ⟨[], false⟩ [1]).2 = ([1] : List Nat).length) ∧
    sending_buffer (0 + 1) 0 [7, 7] 0 1250 0 (none :: []) = .aborted 1250 0 [] := by
  have h := send_restart_after_timeout ⟨[], false⟩ [1] [7, 7] 0 0 0 1250 0 []
  exact ⟨h.1, h.2 (by decide) (by decide)⟩

/-! ## Claim C7 -/

/-- Counterexample to claim C7 as stated: a FIN|ACK segment whose ack
field equals `ack_number + 1` but whose sequence field does not match does
not let the active close proceed to finalization. -/
theorem fin_ack_field_counterexample :
    flags_field seg_finack_bad = FIN ||| ACK ∧
    ack_field seg_finack_bad = 100 + 1 ∧
    terminate_client_tail ⟨50, 100⟩ [seg_finack_bad] = none := by
  decide

/-- Claim C7, amended: the active close proceeds exactly when the matched
FIN|ACK segment has sequence field equal to `ack_number + 1`; on that
match it sets `ack_number` to that sequence number, increments
`sequence_number` by 1, sends three final ACKs and lingers. -/
theorem active_close_fin_ack_sequence_match :
    ∀ (st : CloseState) (pre : List (List Nat)) (bs : List Nat),
      (∀ p ∈ pre, flags_field (p.take HEADER) ≠ FIN ||| ACK) →
      flags_field (bs.take HEADER) = FIN ||| ACK →
      seq_field (bs.take HEADER) = st.ack_number + 1 →
      terminate_client_tail st (pre ++ [bs]) =
        some (⟨st.sequence_number + 1, seq_field (bs.take HEADER)⟩,
              [.send_seg ACK, .send_seg ACK, .send_seg ACK, .linger]) := by
  intro st pre bs hpre hflags hseq
  have hmatch : ∀ (l : List (List Nat)),
      (∀ p ∈ l, flags_field (p.take HEADER) ≠ FIN ||| ACK) →
      recv_flags_match (FIN ||| ACK) (l ++ [bs]) = some (bs.take HEADER) := by
    intro l
    induction l with
    | nil => intro _; simp [recv_flags_match, hflags]
    | cons p rest ih =>
      intro hl
      simp only [List.cons_append, recv_flags_match]
      rw [if_neg (hl p (by simp))]
      exact ih (fun q hq => hl q (by simp [hq]))
  unfold terminate_client_tail wait_for_fin_ack
  rw [hmatch pre hpre]
  simp [hseq, send_final_client_ack]

/-- Witness for the amended C7 theorem at a concrete matching segment. -/
theorem active_close_fin_ack_sequence_match_witness :
    terminate_client_tail ⟨50, 100⟩ ([] ++ [seg_finack_good]) =
      some (⟨50 + 1, seq_field (seg_finack_good.take HEADER)⟩,
            [.send_seg ACK, .send_seg ACK, .send_seg ACK, .linger]) :=
  active_close_fin_ack_sequence_match ⟨50, 100⟩ [] seg_finack_good
    (by simp) (by decide) (by decide)

/-! ## Claim C8 -/

/-- Counterexample to claim C8 as stated: a five-byte input is not
rejected; the dispatch loop decodes its flags as 0 and consumes it as a
data segment, with no MalformedSegment failure anywhere. -/
theorem undersized_decode_counterexample :
    ([1, 2, 3, 4, 5] : List Nat).length < HEADER ∧
    decode_segment [1, 2, 3, 4, 5] = .ok (16909060, 5, 0) ∧
    receiving_step d0 [1, 2, 3, 4, 5] = ⟨0, [1, 2, 3, 4, 5], 16909060, false, true, false⟩ := by
  exact ⟨by decide, rfl, by decide⟩

/-- Claim C8, amended: undersized input never fails to decode; in
particular every incoming byte string of at most 8 bytes decodes its flags
field as 0 and is dispatched as a pure data segment. -/
theorem undersized_input_is_data_segment :
    ∀ (st : DispatchState) (bs : List Nat), bs.length ≤ 8 →
      decode_segment bs = .ok (seq_field bs, ack_field bs, 0) ∧
      receiving_step st bs =
        { st with received_data := bs, remote_sequence_number := seq_field bs,
                  data_received_event := true } := by
  intro st bs h
  have hf := flags_field_eq_zero_of_le_eight bs h
  constructor
  · unfold decode_segment
    rw [hf]
  · unfold receiving_step
    rw [hf, if_neg (by decide), if_pos rfl]

/-- Witness for the amended C8 theorem at a concrete two-byte input. -/
theorem undersized_input_is_data_segment_witness :
    receiving_step d0 [255, 255] = ⟨0, [255, 255], 65535, false, true, false⟩ :=
  (undersized_input_is_data_segment d0 [255, 255] (by decide)).2

/-! ## Claim C9 -/

/-- Claim C9: sequence numbers are unbounded and 4-byte encoding raises
instead of wrapping once the value reaches 2 to the 32; concretely, a run
starting from the maximal random initial sequence number that sends one
byte advances the sequence number past the 32-bit range and the send
raises OverflowError. -/
theorem sequence_overflow_raises :
    (∀ v : Nat, 2 ^ 32 ≤ v → int_to_bytes v 4 = .error .overflowError) ∧
    sending_buffer 3 4294967295 [42] 0 4294967295 4294967295 [] =
      .raised .overflowError [] := by
  constructor
  · intro v h
    unfold int_to_bytes
    rw [if_neg (by norm_num at h ⊢; omega)]
  · rfl

/-- Witness for C9 at the first non-encodable value. -/
theorem sequence_overflow_raises_witness :
    int_to_bytes 4294967296 4 = .error .overflowError :=
  sequence_overflow_raises.1 4294967296 (by norm_num)

end TcpOverUdp
